import Mathlib

/-!
Shallow embedding of the interviewer-avatar-app session controller and
avatar manager, with theorems settling the claims of the specification.

Sources embedded:
 - `src/static/js/interview.js` — multiple-choice `InterviewController`
   (question list, question loop, answer handling, scoring, init).
 - `src/unnamed/part_000` — `AvatarManager` (speak, stopSpeaking, disconnect).
 - `src/unnamed/part_001` — speech-input `InterviewController`
   (question loop with `_listenForAnswer`, acknowledgement RESPONSES).
-/

namespace Interview

/-- One multiple-choice option `{ id, text }` (interview.js lines 6-11). -/
structure McOption where
  id : String
  text : String
deriving Repr, DecidableEq

/-- One question record `{ id, text, options, correct }` (interview.js lines 2-58). -/
structure Question where
  id : Nat
  text : String
  options : List McOption
  correct : String
deriving Repr, DecidableEq

/-- The hardcoded five-question list `QUESTIONS` of interview.js lines 2-58
(option texts elided to their ids, which is all the controller logic reads;
question texts kept). -/
def QUESTIONS : List Question :=
  [ { id := 1
    , text := "How do you prioritize tasks when you have multiple deadlines at the same time?"
    , options := [⟨"A", ""⟩, ⟨"B", ""⟩, ⟨"C", ""⟩, ⟨"D", ""⟩]
    , correct := "B" }
  , { id := 2
    , text := "A team member disagrees with your approach on an important project. How do you handle it?"
    , options := [⟨"A", ""⟩, ⟨"B", ""⟩, ⟨"C", ""⟩, ⟨"D", ""⟩]
    , correct := "C" }
  , { id := 3
    , text := "You realize mid-project that the initial requirements were unclear and the deliverable may miss the mark. What do you do?"
    , options := [⟨"A", ""⟩, ⟨"B", ""⟩, ⟨"C", ""⟩, ⟨"D", ""⟩]
    , correct := "B" }
  , { id := 4
    , text := "How do you respond when you receive critical feedback about your work from a supervisor?"
    , options := [⟨"A", ""⟩, ⟨"B", ""⟩, ⟨"C", ""⟩, ⟨"D", ""⟩]
    , correct := "C" }
  , { id := 5
    , text := "You are assigned a task that requires a skill you do not currently have. What is your approach?"
    , options := [⟨"A", ""⟩, ⟨"B", ""⟩, ⟨"C", ""⟩, ⟨"D", ""⟩]
    , correct := "B" }
  ]

/-- JavaScript `Math.round` on a (here always non-negative, exactly
representable) number: round half up, `⌊x + 1/2⌋`. -/
def mathRound (x : ℚ) : ℤ := ⌊x + 1/2⌋

/-- JavaScript `String.prototype.toUpperCase`, character by character
(the strings this program compares are ASCII option tokens). -/
def jsToUpper (s : String) : String := String.mk (s.data.map Char.toUpper)

/-- One entry of the `results` array built by `_scoreAnswers`
(interview.js line 343), option list elided as in `Question`. -/
structure QResult where
  id : Nat
  text : String
  selected : String
  correct : String
  is_correct : Bool
deriving Repr, DecidableEq

/-- The record returned by `_scoreAnswers` (interview.js line 351). -/
structure ScoreData where
  score : Nat
  total : Nat
  percentage : ℤ
  grade : String
  results : List QResult
deriving Repr, DecidableEq

/-- `InterviewController._scoreAnswers` (interview.js lines 337-352).
The `answers` object `{ "1": "B", ... }` is embedded as a string-keyed
partial map; `this.answers[String(q.id)] || ''` becomes `getD ""`
(JavaScript `||` maps both a missing key and the empty string to `''`,
and `getD` agrees on both), `.toUpperCase()` becomes `jsToUpper`. -/
def scoreAnswers (answers : String → Option String) : ScoreData :=
  let results := QUESTIONS.map (fun q =>
    let selected := jsToUpper ((answers (toString q.id)).getD "")
    { id := q.id, text := q.text, selected := selected
    , correct := q.correct, is_correct := selected == q.correct })
  let score := results.countP (·.is_correct)
  let total := QUESTIONS.length
  let percentage := mathRound ((score : ℚ) / (total : ℚ) * 100)
  let grade := if percentage ≥ 80 then "Excellent"
    else if percentage ≥ 60 then "Good"
    else if percentage ≥ 40 then "Average"
    else "Needs Improvement"
  { score := score, total := total, percentage := percentage
  , grade := grade, results := results }

/-- The example answer record of the claim: `{B,C,B,C,B}` on keys 1..5. -/
def exampleAnswers : String → Option String := fun k =>
  if k = "1" then some "B"
  else if k = "2" then some "C"
  else if k = "3" then some "B"
  else if k = "4" then some "C"
  else if k = "5" then some "B"
  else none

lemma scoreAnswers_total (ans : String → Option String) :
    (scoreAnswers ans).total = 5 := rfl

lemma scoreAnswers_percentage_def (ans : String → Option String) :
    (scoreAnswers ans).percentage
      = mathRound (((scoreAnswers ans).score : ℚ) / ((scoreAnswers ans).total : ℚ) * 100) := rfl

lemma scoreAnswers_grade_def (ans : String → Option String) :
    (scoreAnswers ans).grade
      = (if (scoreAnswers ans).percentage ≥ 80 then "Excellent"
         else if (scoreAnswers ans).percentage ≥ 60 then "Good"
         else if (scoreAnswers ans).percentage ≥ 40 then "Average"
         else "Needs Improvement") := rfl

lemma scoreAnswers_score_le (ans : String → Option String) :
    (scoreAnswers ans).score ≤ 5 := by
  have h : (scoreAnswers ans).score
      ≤ (QUESTIONS.map (fun q =>
          let selected := jsToUpper ((ans (toString q.id)).getD "")
          ({ id := q.id, text := q.text, selected := selected
           , correct := q.correct, is_correct := selected == q.correct } : QResult))).length :=
    List.countP_le_length _
  simpa using h

lemma mathRound_score_div (s : Nat) (hs : s ≤ 5) :
    mathRound ((s : ℚ) / 5 * 100) = (200 * (s : ℤ) + 5) / 10 := by
  interval_cases s <;> norm_num [mathRound]

lemma scoreAnswers_percentage_formula (ans : String → Option String) :
    (scoreAnswers ans).percentage = (200 * ((scoreAnswers ans).score : ℤ) + 5) / 10 := by
  have h := mathRound_score_div (scoreAnswers ans).score (scoreAnswers_score_le ans)
  rw [scoreAnswers_percentage_def, scoreAnswers_total]
  simpa using h

lemma scoreAnswers_grade_iff (ans : String → Option String) :
    ((scoreAnswers ans).grade = "Excellent" ↔ (scoreAnswers ans).percentage ≥ 80)
    ∧ ((scoreAnswers ans).grade = "Good"
        ↔ 60 ≤ (scoreAnswers ans).percentage ∧ (scoreAnswers ans).percentage < 80)
    ∧ ((scoreAnswers ans).grade = "Average"
        ↔ 40 ≤ (scoreAnswers ans).percentage ∧ (scoreAnswers ans).percentage < 60)
    ∧ ((scoreAnswers ans).grade = "Needs Improvement"
        ↔ (scoreAnswers ans).percentage < 40) := by
  rw [scoreAnswers_grade_def]
  split_ifs with h80 h60 h40 <;> refine ⟨?_, ?_, ?_, ?_⟩ <;> simp_all <;> omega

lemma exampleAnswers_score : (scoreAnswers exampleAnswers).score = 5 := by decide

lemma exampleAnswers_percentage : (scoreAnswers exampleAnswers).percentage = 100 := by
  rw [scoreAnswers_percentage_formula, exampleAnswers_score]; decide

lemma exampleAnswers_grade : (scoreAnswers exampleAnswers).grade = "Excellent" := by
  rw [scoreAnswers_grade_def, exampleAnswers_percentage]; decide

/-- C1: the scoring routine `_scoreAnswers` walks the question list in
original order, defaults a never-answered question to the empty string,
upper-cases the selection before comparing it to the question's correct
option, tallies the matches as `score`, computes `percentage` as
round-half-up of `score/total*100` (equivalently `(200*score+5)/10` since
`score ≤ 5`), and assigns grade Excellent iff percentage ≥ 80, Good iff
60 ≤ percentage < 80, Average iff 40 ≤ percentage < 60, and
Needs Improvement otherwise; answers `{B,C,B,C,B}` against the hardcoded
correct set `{B,C,B,C,B}` yield score 5, total 5, percentage 100, grade
Excellent. -/
theorem c1_score_answers (ans : String → Option String) :
    (scoreAnswers ans).total = 5
    ∧ (scoreAnswers ans).results.map (·.id) = QUESTIONS.map (·.id)
    ∧ (scoreAnswers ans).results.map (·.selected)
        = QUESTIONS.map (fun q => jsToUpper ((ans (toString q.id)).getD ""))
    ∧ (scoreAnswers ans).score
        = QUESTIONS.countP (fun q => jsToUpper ((ans (toString q.id)).getD "") == q.correct)
    ∧ (scoreAnswers ans).percentage
        = mathRound (((scoreAnswers ans).score : ℚ) / ((scoreAnswers ans).total : ℚ) * 100)
    ∧ (scoreAnswers ans).percentage = (200 * ((scoreAnswers ans).score : ℤ) + 5) / 10
    ∧ ((scoreAnswers ans).grade = "Excellent" ↔ (scoreAnswers ans).percentage ≥ 80)
    ∧ ((scoreAnswers ans).grade = "Good"
        ↔ 60 ≤ (scoreAnswers ans).percentage ∧ (scoreAnswers ans).percentage < 80)
    ∧ ((scoreAnswers ans).grade = "Average"
        ↔ 40 ≤ (scoreAnswers ans).percentage ∧ (scoreAnswers ans).percentage < 60)
    ∧ ((scoreAnswers ans).grade = "Needs Improvement"
        ↔ (scoreAnswers ans).percentage < 40)
    ∧ (scoreAnswers exampleAnswers).score = 5
    ∧ (scoreAnswers exampleAnswers).total = 5
    ∧ (scoreAnswers exampleAnswers).percentage = 100
    ∧ (scoreAnswers exampleAnswers).grade = "Excellent" := by
  obtain ⟨g1, g2, g3, g4⟩ := scoreAnswers_grade_iff ans
  refine ⟨rfl, ?_, ?_, ?_, scoreAnswers_percentage_def ans,
    scoreAnswers_percentage_formula ans, g1, g2, g3, g4,
    exampleAnswers_score, rfl, exampleAnswers_percentage, exampleAnswers_grade⟩
  · simp [scoreAnswers, List.map_map]
  · simp [scoreAnswers, List.map_map]
  · simp only [scoreAnswers, List.countP_map]
    rfl

/-- One observable call of the question loop (interview.js 202-206): a call
`_askQuestion idx` with `idx < questionCount` presents question `idx`;
the call with `idx ≥ questionCount` instead invokes `_finishInterview`. -/
inductive LoopCall where
  | present (idx : Nat)
  | finishAt (idx : Nat)
deriving Repr, DecidableEq

/-- The question-loop recursion of interview.js with question count `n`:
`_askQuestion idx` either finishes (line 203-205, guard
`idx >= this.questions.length`) or presents question `idx`, after which
`_handleAnswer` — once the answer is recorded — recurses at
`this.currentIdx + 1` (line 291), `currentIdx` having been set to `idx`
at line 208. -/
def loopCalls (n idx : Nat) : List LoopCall :=
  if n ≤ idx then [LoopCall.finishAt idx]
  else LoopCall.present idx :: loopCalls n (idx + 1)
termination_by n - idx
decreasing_by omega

/-- Whether a loop call is a finish invocation. -/
def isFinishCall : LoopCall → Bool
  | LoopCall.finishAt _ => true
  | LoopCall.present _ => false

lemma loopCalls_eq (d k : Nat) :
    loopCalls (k + d) k
      = ((List.range' k d).map LoopCall.present) ++ [LoopCall.finishAt (k + d)] := by
  induction d generalizing k with
  | zero => rw [loopCalls]; simp
  | succ d ih =>
    rw [loopCalls]
    have hk : ¬ (k + (d + 1) ≤ k) := by omega
    have h2 := ih (k + 1)
    rw [if_neg hk, show k + (d + 1) = (k + 1) + d from by omega, h2]
    simp [List.range']

/-- C2: every run of the question loop beginning at index 0 presents each
question index exactly once, in the strictly increasing order
0, 1, ..., n-1 (each advance passing `currentIdx + 1`), and invokes the
finish routine exactly once, on the single call whose index equals the
question count `n`. -/
theorem c2_question_loop (n : Nat) :
    loopCalls n 0 = ((List.range n).map LoopCall.present) ++ [LoopCall.finishAt n]
    ∧ (loopCalls n 0).countP isFinishCall = 1
    ∧ (loopCalls n 0).countP (fun c => ! isFinishCall c) = n := by
  have h := loopCalls_eq n 0
  rw [Nat.zero_add] at h
  rw [List.range_eq_range']
  refine ⟨h, ?_, ?_⟩ <;>
    simp [h, List.range_eq_range', List.countP_append, List.countP_map, isFinishCall,
      Function.comp_def, List.countP_true]

/-- The multiple-choice controller state touched by `_handleAnswer`
(interview.js 74-82): `currentIdx`, the `answers` object (string keys),
`answerLocked`, and whether the option buttons are enabled. -/
structure MCState where
  currentIdx : Nat
  answers : List (String × String)
  answerLocked : Bool
  optionsEnabled : Bool
deriving Repr, DecidableEq

/-- JavaScript object assignment `this.answers[k] = v`: overwrite the
entry when the key exists, otherwise append it. -/
def recordAnswer (m : List (String × String)) (k v : String) : List (String × String) :=
  if m.any (fun p => p.1 == k) then m.map (fun p => if p.1 == k then (k, v) else p)
  else m ++ [(k, v)]

/-- The primitive steps `_handleAnswer` performs, in order (interview.js
272-292). -/
inductive HStep where
  | setLock
  | disableOptions
  | record (qid opt : String)
  | highlight (opt : String)
  | wait (ms : Nat)
  | advanceTo (idx : Nat)
deriving Repr, DecidableEq

/-- `InterviewController._handleAnswer` (interview.js 272-292): a no-op
when `answerLocked` is true (line 273); otherwise it locks immediately
(line 276, before the 700ms asynchronous pause of line 290), disables the
options, records `optionId` under `String(questionId)` — at the call site
(line 267) `questionId` is the id of the currently rendered question —
highlights the chosen option, waits 700ms, then advances to
`currentIdx + 1` (line 291). Returns the successor state and the ordered
list of performed steps. -/
def handleAnswer (s : MCState) (questionId optionId : String) : MCState × List HStep :=
  if s.answerLocked then (s, [])
  else
    ({ s with answerLocked := true
            , optionsEnabled := false
            , answers := recordAnswer s.answers questionId optionId },
     [HStep.setLock, HStep.disableOptions, HStep.record questionId optionId,
      HStep.highlight optionId, HStep.wait 700, HStep.advanceTo (s.currentIdx + 1)])

/-- C3: while `answerLocked` is true, `_handleAnswer` is a no-op — the
AnswerRecord and `currentIdx` are unchanged and no advance occurs; while
`answerLocked` is false, it sets the lock as its first step (before the
asynchronous 700ms wait, so at most one answer is accepted per question),
records exactly the given token under the given (current) question id,
and advances by presenting question `currentIdx + 1`. -/
theorem c3_handle_answer (s : MCState) (qid opt : String) :
    (s.answerLocked = true → handleAnswer s qid opt = (s, []))
    ∧ (s.answerLocked = false →
        (handleAnswer s qid opt).1.answerLocked = true
        ∧ (handleAnswer s qid opt).1.answers = recordAnswer s.answers qid opt
        ∧ (handleAnswer s qid opt).1.currentIdx = s.currentIdx
        ∧ (handleAnswer s qid opt).2
            = [HStep.setLock, HStep.disableOptions, HStep.record qid opt,
               HStep.highlight opt, HStep.wait 700,
               HStep.advanceTo (s.currentIdx + 1)]) := by
  constructor
  · intro h; simp [handleAnswer, h]
  · intro h; simp [handleAnswer, h]

/-- Witness for C3 at concrete states: a locked state rejects the
submission unchanged, an unlocked state accepts and locks. -/
theorem c3_handle_answer_witness :
    handleAnswer ⟨0, [], true, false⟩ "1" "B" = (⟨0, [], true, false⟩, [])
    ∧ (handleAnswer ⟨0, [], false, true⟩ "1" "B").1.answerLocked = true
    ∧ (handleAnswer ⟨0, [], false, true⟩ "1" "B").1.answers = [("1", "B")] := by
  refine ⟨(c3_handle_answer ⟨0, [], true, false⟩ "1" "B").1 rfl,
    ((c3_handle_answer ⟨0, [], false, true⟩ "1" "B").2 rfl).1, ?_⟩
  have h := ((c3_handle_answer ⟨0, [], false, true⟩ "1" "B").2 rfl).2.1
  rw [h]; rfl

/-- How the bounded speak operation of `_askQuestion` settles: the avatar
completes synthesis (resolves), the result callback reports a
non-completed reason (rejects, part_000 140-146), the error callback
fires (rejects, part_000 148-153), or the speak promise never settles and
the 30-second timer rejects the race (interview.js 240-243). -/
inductive SpeakOutcome where
  | completed
  | failed
  | errored
  | hang
deriving Repr, DecidableEq

/-- The controller UI state touched by the speak phase of `_askQuestion`. -/
structure CtrlUI where
  answerLocked : Bool
  optionsEnabled : Bool
  dot : String
  statusLabel : String
  hint : Bool
  warned : Bool
deriving Repr, DecidableEq

/-- The `onSpeakStart` callback registered in `init` (interview.js
134-144): locks options, shows the speaking dot and hint. -/
def onSpeakStartCb (u : CtrlUI) : CtrlUI :=
  { u with answerLocked := true, optionsEnabled := false, dot := "speaking"
         , statusLabel := "Speaking…", hint := true }

/-- The `onSpeakEnd` callback registered in `init` (interview.js 146-153):
unlocks options when the avatar finishes speaking. -/
def onSpeakEndCb (u : CtrlUI) : CtrlUI :=
  { u with answerLocked := false, optionsEnabled := true, dot := "connected"
         , statusLabel := "Ready — select your answer", hint := false }

/-- The local `unlockOptions` closure of `_askQuestion` (interview.js
230-236), run by the catch block. -/
def unlockOptions (u : CtrlUI) : CtrlUI :=
  { u with answerLocked := false, optionsEnabled := true, dot := "connected"
         , statusLabel := "Select your answer", hint := false }

/-- The speak phase of `_askQuestion idx` for an in-range index
(interview.js 208-248) as a function of how the bounded speak settles:
the controller locks and disables options (lines 209, 217), the avatar
fires `onSpeakStart` when synthesis begins; on completion the avatar
fires `onSpeakEnd` before resolving; on a failure or error the avatar
fires `onSpeakEnd` before rejecting (part_000 136-153) and the catch
block warns and unlocks; on hang `onSpeakEnd` never fires and the timeout
rejection reaches the same catch block. The function is total: the catch
block absorbs every rejection, so no exception escapes to the caller. -/
def askQuestionSpeakPhase (o : SpeakOutcome) (u : CtrlUI) : CtrlUI :=
  let locked := { u with answerLocked := true, optionsEnabled := false }
  match o with
  | SpeakOutcome.completed => onSpeakEndCb (onSpeakStartCb locked)
  | SpeakOutcome.failed =>
      { unlockOptions (onSpeakEndCb (onSpeakStartCb locked)) with warned := true }
  | SpeakOutcome.errored =>
      { unlockOptions (onSpeakEndCb (onSpeakStartCb locked)) with warned := true }
  | SpeakOutcome.hang =>
      { unlockOptions (onSpeakStartCb locked) with warned := true }

/-- C4: however the bounded speak operation settles — completion,
rejection, or the 30-second timeout — `_askQuestion` ends the speak phase
in the answer-collection state with `answerLocked` false and options
enabled; the flow-relevant outcome (lock, options, dot, hint) is
identical to the success case, the settle modes differing only in the
logged warning; and the phase is a total function of the outcome, i.e. no
exception escapes to the caller. -/
theorem c4_speak_settles_unlocked (o : SpeakOutcome) (u : CtrlUI) :
    (askQuestionSpeakPhase o u).answerLocked = false
    ∧ (askQuestionSpeakPhase o u).optionsEnabled = true
    ∧ (askQuestionSpeakPhase o u).dot = "connected"
    ∧ (askQuestionSpeakPhase o u).hint = false
    ∧ ((askQuestionSpeakPhase o u).answerLocked,
       (askQuestionSpeakPhase o u).optionsEnabled,
       (askQuestionSpeakPhase o u).dot,
       (askQuestionSpeakPhase o u).hint)
        = ((askQuestionSpeakPhase SpeakOutcome.completed u).answerLocked,
           (askQuestionSpeakPhase SpeakOutcome.completed u).optionsEnabled,
           (askQuestionSpeakPhase SpeakOutcome.completed u).dot,
           (askQuestionSpeakPhase SpeakOutcome.completed u).hint)
    ∧ (askQuestionSpeakPhase o u).warned
        = (if o = SpeakOutcome.completed then u.warned else true) := by
  cases o <;>
    simp [askQuestionSpeakPhase, onSpeakStartCb, onSpeakEndCb, unlockOptions]

/-- The events that read or write `answerLocked` during one question of
the multiple-choice flow: `_askQuestion` locking (interview.js 209), the
avatar lifecycle callbacks (139, 148), the catch-block unlock (231), and
a submission attempt (`_handleAnswer`, 273-276). -/
inductive LEv where
  | askStart
  | speakStart
  | speakEnd
  | timeoutUnlock
  | submit
deriving Repr, DecidableEq

/-- The effect of one event on `answerLocked`, read off the source:
`askStart` and `speakStart` set it true, `speakEnd` and `timeoutUnlock`
set it false, and a submission is a no-op while locked but locks again
when accepted (interview.js 273-276). -/
def lockStep (b : Bool) (e : LEv) : Bool :=
  match e with
  | LEv.askStart => true
  | LEv.speakStart => true
  | LEv.speakEnd => false
  | LEv.timeoutUnlock => false
  | LEv.submit => if b then b else true

/-- `answerLocked` after running the events from lock state `b`
(the constructor initialises `answerLocked = true`, interview.js 79). -/
def lockAfter (b : Bool) (es : List LEv) : Bool := es.foldl lockStep b

/-- How many submissions are accepted (`_handleAnswer` past the
`answerLocked` guard) along the events from lock state `b`. -/
def acceptedCount (b : Bool) (es : List LEv) : Nat :=
  match es with
  | [] => 0
  | e :: rest =>
      (if e = LEv.submit ∧ b = false then 1 else 0) + acceptedCount (lockStep b e) rest

/-- C5 counterexample: in the execution where the avatar finishes
speaking a question normally and the user then clicks — events
`[askStart, speakStart, speakEnd]` then `submit`, from the initially
locked constructor state — `answerLocked` is false immediately after
`speakEnd`, a point strictly between the start of the question being
spoken and the acceptance of the answer (no answer has been accepted
yet), refuting the claim that `answerLocked` stays true throughout that
interval: `onSpeakEnd` (interview.js 148) must unlock before any answer
can be accepted at all. -/
theorem c5_counterexample :
    lockAfter true [LEv.askStart, LEv.speakStart, LEv.speakEnd] = false
    ∧ acceptedCount true [LEv.askStart, LEv.speakStart, LEv.speakEnd] = 0
    ∧ acceptedCount true [LEv.askStart, LEv.speakStart, LEv.speakEnd, LEv.submit] = 1 := by
  decide

/-- C5 amended: `answerLocked` is true from the start of the question
being spoken until the speak operation settles — along any events that
contain neither `speakEnd` nor the timeout unlock, the lock stays true
and no submission is accepted; only `onSpeakEnd` (or the catch-block
unlock) sets it false, after which the answer can be accepted. -/
theorem c5_locked_while_speaking (es : List LEv)
    (h1 : LEv.speakEnd ∉ es) (h2 : LEv.timeoutUnlock ∉ es) :
    lockAfter true (LEv.askStart :: es) = true
    ∧ acceptedCount true (LEv.askStart :: es) = 0 := by
  have key : ∀ l : List LEv, LEv.speakEnd ∉ l → LEv.timeoutUnlock ∉ l →
      lockAfter true l = true ∧ acceptedCount true l = 0 := by
    intro l
    induction l with
    | nil => intro _ _; exact ⟨rfl, rfl⟩
    | cons e rest ih =>
      intro hA hB
      have hA' : LEv.speakEnd ∉ rest := fun hm => hA (List.mem_cons_of_mem _ hm)
      have hB' : LEv.timeoutUnlock ∉ rest := fun hm => hB (List.mem_cons_of_mem _ hm)
      have he1 : e ≠ LEv.speakEnd := fun he => hA (he ▸ List.mem_cons_self _ _)
      have he2 : e ≠ LEv.timeoutUnlock := fun he => hB (he ▸ List.mem_cons_self _ _)
      have hstep : lockStep true e = true := by
        cases e <;> simp_all [lockStep]
      obtain ⟨ihl, ihc⟩ := ih hA' hB'
      constructor
      · show lockAfter (lockStep true e) rest = true
        rw [hstep]; exact ihl
      · simp only [acceptedCount, hstep, ihc]
        simp
  exact key (LEv.askStart :: es)
    (fun hm => Or.elim (List.mem_cons.mp hm) (fun h => absurd h (by decide)) h1)
    (fun hm => Or.elim (List.mem_cons.mp hm) (fun h => absurd h (by decide)) h2)

/-- Witness for the amended C5 at the concrete speaking-phase events
`[speakStart, submit]`. -/
theorem c5_locked_while_speaking_witness :
    lockAfter true [LEv.askStart, LEv.speakStart, LEv.submit] = true
    ∧ acceptedCount true [LEv.askStart, LEv.speakStart, LEv.submit] = 0 :=
  c5_locked_while_speaking [LEv.speakStart, LEv.submit] (by decide) (by decide)

/-- A speak request of the session, observed at the avatar boundary:
`issue i` when `_askQuestion i` calls `this.avatar.speak` (interview.js
243), `settle i` when that speak promise resolves or rejects. -/
inductive ReqEv where
  | issue (idx : Nat)
  | settle (idx : Nat)
deriving Repr, DecidableEq

/-- The request trace of a completed session with `n` questions under
schedule `σ`: for each question in order, `_askQuestion` issues the speak
and awaits `Promise.race` of it against a 30-second timer (interview.js
238-247). When `σ i` is true the speak settles within the bound, before
the user answers and the next index is issued; when `σ i` is false the
timer rejects the race first, the catch block unlocks, the flow continues
(the loser of the race is never cancelled), and the hung speak never
settles. -/
def speakTrace (σ : Nat → Bool) (n : Nat) : List ReqEv :=
  ((List.range n).map
    (fun i => ReqEv.issue i :: (if σ i then [ReqEv.settle i] else []))).flatten

/-- Scans the trace keeping the multiset of pending speak requests:
`true` iff every `issue` happens while no earlier request is still
pending. -/
def overlapFreeAux (pending : List Nat) : List ReqEv → Bool
  | [] => true
  | ReqEv.issue i :: rest => pending.isEmpty && overlapFreeAux (i :: pending) rest
  | ReqEv.settle i :: rest => overlapFreeAux (pending.erase i) rest

/-- Whether the controller never issues a speak while a previous one is
pending. -/
def overlapFree (es : List ReqEv) : Bool := overlapFreeAux [] es

/-- C6 counterexample: with two questions where the first speak hangs past
its 30-second timeout and never settles (`σ 0 = false`), the trace is
`[issue 0, issue 1, settle 1]` — the speak for question 1 is issued while
the speak for question 0 is still pending, because the timeout only
rejects the race and never cancels the underlying request. This is
exactly the case the claim asserts is serialized, refuting it. -/
theorem c6_counterexample :
    speakTrace (fun i => i != 0) 2 = [ReqEv.issue 0, ReqEv.issue 1, ReqEv.settle 1]
    ∧ overlapFree (speakTrace (fun i => i != 0) 2) = false := by
  constructor <;> rfl

/-- C6 amended: the lock-driven sequencing serializes requests provided
every speak settles within its 30-second bound — for every question count
the all-settle trace is overlap-free; but when a speak times out while
unsettled, the controller proceeds and the next request is issued while
the previous one is still pending. -/
theorem c6_serialized_when_settling (n : Nat) :
    overlapFree (speakTrace (fun _ => true) n) = true
    ∧ overlapFree (speakTrace (fun i => i != 0) 2) = false := by
  refine ⟨?_, rfl⟩
  have key : ∀ l : List Nat,
      overlapFreeAux []
        ((l.map (fun i => ReqEv.issue i :: [ReqEv.settle i])).flatten) = true := by
    intro l
    induction l with
    | nil => rfl
    | cons i rest ih =>
      show overlapFreeAux [] (ReqEv.issue i :: ReqEv.settle i :: _) = true
      simp only [overlapFreeAux, List.isEmpty_nil, Bool.true_and]
      simpa [List.erase_cons_head] using ih
  have h := key (List.range n)
  simpa [speakTrace, overlapFree] using h

/-- How one of the two token fetches of `init` settles (interview.js
91-100): a 2xx response whose body is read, a non-2xx response (the
`then` callback throws `... error ${status}: ${statusText}`), or a
network rejection of the fetch itself. -/
inductive FetchOutcome where
  | ok (body : String)
  | httpError (status : Nat) (statusText : String)
  | networkError (msg : String)
deriving Repr, DecidableEq

/-- Whether a fetch outcome is a success. -/
def FetchOutcome.isOk : FetchOutcome → Bool
  | FetchOutcome.ok _ => true
  | _ => false

/-- How `avatar.connect` settles once both fetches succeeded:
successfully, with a `JSON.parse` error on the relay-credential JSON
(part_000 line 47, the first statement of `connect`, before any
connection state is established), or with any other connect failure. -/
inductive ConnectOutcome where
  | ok
  | parseError (msg : String)
  | connectError (msg : String)
deriving Repr, DecidableEq

/-- The observable outcome of one `init` run (interview.js 86-176):
whether the avatar session reached the connected state (part_000 line
112 / `onConnected`), whether `_startInterview` ran (line 161), the
loading text shown, whether the manual Retry button was appended (lines
167-174), and whether `init` was re-invoked without user action (the
retry button only wires `btn.onclick`, so never). -/
structure InitResult where
  connected : Bool
  interviewStarted : Bool
  loadingText : String
  retryButton : Bool
  autoRetry : Bool
deriving Repr, DecidableEq

/-- `err.message || 'Unknown error'` (interview.js line 165). -/
def jsOrUnknown (m : String) : String := if m = "" then "Unknown error" else m

/-- The catch block of `init` (interview.js 163-175): show the warning
text with the underlying message and append the manual Retry button. -/
def initFailResult (m : String) : InitResult :=
  { connected := false, interviewStarted := false
  , loadingText := "⚠ " ++ jsOrUnknown m
  , retryButton := true, autoRetry := false }

/-- The message thrown for a non-2xx speech-token response
(interview.js line 93). -/
def speechTokenErrorMsg (status : Nat) (statusText : String) : String :=
  s!"Speech token error {status}: {statusText}"

/-- The message thrown for a non-2xx ICE-token response
(interview.js line 97). -/
def iceTokenErrorMsg (status : Nat) (statusText : String) : String :=
  s!"ICE token error {status}: {statusText}"

/-- `InterviewController.init` (interview.js 86-176) as a function of how
its suspension points settle. `Promise.all` of the two fetches rejects
with the first failure (embedded here with the speech-token failure
taking precedence when both fail); any rejection — fetch failure,
relay-credential parse error, or connect failure — lands in the single
catch block. Only when every step succeeds does `init` connect and call
`_startInterview`. -/
def initRun (speech ice : FetchOutcome) (conn : ConnectOutcome) : InitResult :=
  match speech with
  | FetchOutcome.httpError st sx => initFailResult (speechTokenErrorMsg st sx)
  | FetchOutcome.networkError m => initFailResult m
  | FetchOutcome.ok _ =>
    match ice with
    | FetchOutcome.httpError st sx => initFailResult (iceTokenErrorMsg st sx)
    | FetchOutcome.networkError m => initFailResult m
    | FetchOutcome.ok _ =>
      match conn with
      | ConnectOutcome.parseError m => initFailResult m
      | ConnectOutcome.connectError m => initFailResult m
      | ConnectOutcome.ok =>
          { connected := true, interviewStarted := true
          , loadingText := "Initialising avatar…"
          , retryButton := false, autoRetry := false }

/-- C7: whenever a token fetch fails (non-2xx status or network error) or
the relay-credential JSON fails to parse, `init` does not reach the
connected state and does not start the interview loop, surfaces the
manual Retry affordance with the underlying message in the warning text,
and never retries automatically (the last conjunct holds for every run). -/
theorem c7_init_failure (speech ice : FetchOutcome) (conn : ConnectOutcome) :
    (initRun speech ice conn).autoRetry = false
    ∧ ((speech.isOk = false ∨ ice.isOk = false ∨ (∃ m, conn = ConnectOutcome.parseError m)) →
        (initRun speech ice conn).connected = false
        ∧ (initRun speech ice conn).interviewStarted = false
        ∧ (initRun speech ice conn).retryButton = true)
    ∧ (∀ st sx, speech = FetchOutcome.httpError st sx →
        (initRun speech ice conn).loadingText = "⚠ " ++ jsOrUnknown (speechTokenErrorMsg st sx))
    ∧ (∀ m, speech = FetchOutcome.networkError m →
        (initRun speech ice conn).loadingText = "⚠ " ++ jsOrUnknown m)
    ∧ (∀ b st sx, speech = FetchOutcome.ok b → ice = FetchOutcome.httpError st sx →
        (initRun speech ice conn).loadingText = "⚠ " ++ jsOrUnknown (iceTokenErrorMsg st sx))
    ∧ (∀ b m, speech = FetchOutcome.ok b → ice = FetchOutcome.networkError m →
        (initRun speech ice conn).loadingText = "⚠ " ++ jsOrUnknown m)
    ∧ (∀ b b2 m, speech = FetchOutcome.ok b → ice = FetchOutcome.ok b2 →
        conn = ConnectOutcome.parseError m →
        (initRun speech ice conn).loadingText = "⚠ " ++ jsOrUnknown m) := by
  cases speech <;> cases ice <;> cases conn <;>
    simp [initRun, initFailResult, FetchOutcome.isOk]

/-- Witness for C7 at a concrete failing run: the speech-token fetch
returns HTTP 500 while everything else would succeed. -/
theorem c7_init_failure_witness :
    (initRun (FetchOutcome.httpError 500 "Internal Server Error")
      (FetchOutcome.ok "ice") ConnectOutcome.ok).connected = false
    ∧ (initRun (FetchOutcome.httpError 500 "Internal Server Error")
        (FetchOutcome.ok "ice") ConnectOutcome.ok).interviewStarted = false
    ∧ (initRun (FetchOutcome.httpError 500 "Internal Server Error")
        (FetchOutcome.ok "ice") ConnectOutcome.ok).retryButton = true
    ∧ (initRun (FetchOutcome.httpError 500 "Internal Server Error")
        (FetchOutcome.ok "ice") ConnectOutcome.ok).loadingText
        = "⚠ " ++ jsOrUnknown (speechTokenErrorMsg 500 "Internal Server Error") := by
  have h := c7_init_failure (FetchOutcome.httpError 500 "Internal Server Error")
    (FetchOutcome.ok "ice") ConnectOutcome.ok
  exact ⟨(h.2.1 (Or.inl rfl)).1, (h.2.1 (Or.inl rfl)).2.1, (h.2.1 (Or.inl rfl)).2.2,
    h.2.2.1 500 "Internal Server Error" rfl⟩

/-- The `AvatarManager` state fields `_synthesizer`, `_peerConn`,
`isConnected`, `isSpeaking` (part_000 31-36), the two handles abstracted
to presence flags. -/
structure AvatarState where
  synthesizerPresent : Bool
  peerConnPresent : Bool
  isConnected : Bool
  isSpeaking : Bool
deriving Repr, DecidableEq

/-- A close operation attempted during teardown. -/
inductive TeardownOp where
  | closeSynthesizer
  | closePeerConn
deriving Repr, DecidableEq

/-- `AvatarManager.disconnect` (part_000 170-184): when present, close the
synthesizer and the peer connection — each close wrapped in
`try { ... } catch (_) {}`, so the `synthErr`/`peerErr` parameters
(whether the respective close throws) cannot influence the result — then
null both handles and clear `isConnected`. The function is total: it
always returns (the promise always resolves, never rejects), yielding the
new state and the list of close operations attempted. -/
def disconnect (s : AvatarState) (_synthErr _peerErr : Bool) :
    AvatarState × List TeardownOp :=
  ({ s with synthesizerPresent := false, peerConnPresent := false
          , isConnected := false },
   (if s.synthesizerPresent then [TeardownOp.closeSynthesizer] else [])
     ++ (if s.peerConnPresent then [TeardownOp.closePeerConn] else []))

/-- C9: `disconnect` is idempotent and total — it always yields a result
(never throws), its result is independent of whether the underlying close
calls throw (errors swallowed), it leaves the synthesizer and peer
connection null and `isConnected` false, and a second call straight after
the first returns the same state and attempts no further close operation. -/
theorem c9_disconnect_idempotent (s : AvatarState) (e1 e2 e3 e4 : Bool) :
    (disconnect s e1 e2).1.synthesizerPresent = false
    ∧ (disconnect s e1 e2).1.peerConnPresent = false
    ∧ (disconnect s e1 e2).1.isConnected = false
    ∧ disconnect s e1 e2 = disconnect s e3 e4
    ∧ (disconnect (disconnect s e1 e2).1 e3 e4).1 = (disconnect s e1 e2).1
    ∧ (disconnect (disconnect s e1 e2).1 e3 e4).2 = [] := by
  simp [disconnect]

/-- The observable events of one `AvatarManager.speak` call, in order:
the `onSpeakStart` callback, the `speakTextAsync` request, the
`onSpeakEnd` callback, and the settling of the returned promise. -/
inductive AvEvent where
  | speakStartCb
  | synthesisRequested
  | speakEndCb
  | resolved
  | rejected (msg : String)
deriving Repr, DecidableEq

/-- How `speakTextAsync` calls back once invoked (part_000 134-154):
the result callback with reason `SynthesizingAudioCompleted`, the result
callback with any other reason (numeric reason code elided from the
message), or the error callback. A never-settling synthesis produces no
further event and the promise never settles; the claims quantify over the
settling outcomes. -/
inductive SynthOutcome where
  | completed
  | otherReason (details : String)
  | sdkError (err : String)
deriving Repr, DecidableEq

/-- `AvatarManager.speak` (part_000 124-156): reject immediately when the
synthesizer is absent or the manager is not connected (lines 126-129,
state untouched, no callback); otherwise set `isSpeaking`, fire
`onSpeakStart`, request synthesis, and in both the result and the error
callback clear `isSpeaking` and fire `onSpeakEnd` before settling the
promise (lines 136-153). Returns the final state and the ordered event
list. -/
def speak (s : AvatarState) (o : SynthOutcome) : AvatarState × List AvEvent :=
  if s.synthesizerPresent = false ∨ s.isConnected = false then
    (s, [AvEvent.rejected "Avatar is not connected. Call connect() first."])
  else
    let speaking := { s with isSpeaking := true }
    match o with
    | SynthOutcome.completed =>
        ({ speaking with isSpeaking := false },
         [AvEvent.speakStartCb, AvEvent.synthesisRequested, AvEvent.speakEndCb,
          AvEvent.resolved])
    | SynthOutcome.otherReason d =>
        ({ speaking with isSpeaking := false },
         [AvEvent.speakStartCb, AvEvent.synthesisRequested, AvEvent.speakEndCb,
          AvEvent.rejected ("Speech synthesis failed: "
            ++ (if d = "" then "unknown error" else d))])
    | SynthOutcome.sdkError e =>
        ({ speaking with isSpeaking := false },
         [AvEvent.speakStartCb, AvEvent.synthesisRequested, AvEvent.speakEndCb,
          AvEvent.rejected e])

/-- Whether an event is the `onSpeakStart` callback. -/
def isStartCb : AvEvent → Bool
  | AvEvent.speakStartCb => true
  | _ => false

/-- Whether an event is the `onSpeakEnd` callback. -/
def isEndCb : AvEvent → Bool
  | AvEvent.speakEndCb => true
  | _ => false

/-- C10: when the synthesizer is absent or the manager is disconnected,
`speak` rejects immediately with the state unchanged (in particular
`isSpeaking` keeps its value, so it remains false) and fires neither
lifecycle callback; otherwise `onSpeakStart` fires exactly once before
synthesis is requested, `onSpeakEnd` fires exactly once before the
promise settles, `isSpeaking` is false in the final state, and the
promise either resolves (synthesis completed) or rejects (failure or
error). -/
theorem c10_speak_lifecycle (s : AvatarState) (o : SynthOutcome) :
    ((s.synthesizerPresent = false ∨ s.isConnected = false) →
        (speak s o).1 = s
        ∧ (speak s o).2
            = [AvEvent.rejected "Avatar is not connected. Call connect() first."]
        ∧ (speak s o).2.countP isStartCb = 0
        ∧ (speak s o).2.countP isEndCb = 0)
    ∧ (s.synthesizerPresent = true → s.isConnected = true →
        (speak s o).1.isSpeaking = false
        ∧ (speak s o).2.countP isStartCb = 1
        ∧ (speak s o).2.countP isEndCb = 1
        ∧ ∃ settle, (speak s o).2
              = [AvEvent.speakStartCb, AvEvent.synthesisRequested,
                 AvEvent.speakEndCb, settle]
            ∧ (settle = AvEvent.resolved ∨ ∃ m, settle = AvEvent.rejected m)) := by
  constructor
  · intro h
    simp [speak, h, isStartCb, isEndCb]
  · intro h1 h2
    have hcond : ¬ (s.synthesizerPresent = false ∨ s.isConnected = false) := by
      simp [h1, h2]
    cases o <;>
      simp [speak, hcond, isStartCb, isEndCb, List.countP_cons]

/-- Witness for C10: a disconnected state rejects without callbacks, and a
connected speak that completes fires each callback once and ends with
`isSpeaking` false. -/
theorem c10_speak_lifecycle_witness :
    (speak ⟨false, false, false, false⟩ SynthOutcome.completed).1
        = ⟨false, false, false, false⟩
    ∧ (speak ⟨true, true, true, false⟩ SynthOutcome.completed).1.isSpeaking = false
    ∧ (speak ⟨true, true, true, false⟩ SynthOutcome.completed).2.countP isStartCb = 1
    ∧ (speak ⟨true, true, true, false⟩ SynthOutcome.completed).2.countP isEndCb = 1 := by
  have h1 := (c10_speak_lifecycle ⟨false, false, false, false⟩
    SynthOutcome.completed).1 (Or.inl rfl)
  have h2 := (c10_speak_lifecycle ⟨true, true, true, false⟩
    SynthOutcome.completed).2 rfl rfl
  exact ⟨h1.1, h2.1, h2.2.1, h2.2.2.1⟩

/-- One open-ended question `{ id, text }` of the speech-input variant
(part_001 lines 2-7). -/
structure VQuestion where
  id : Nat
  text : String
deriving Repr, DecidableEq

/-- The hardcoded question list of the speech-input variant
(part_001 lines 2-7). -/
def VOICE_QUESTIONS : List VQuestion :=
  [ ⟨1, "Tell me about a time you had to manage multiple deadlines. How did you handle it?"⟩
  , ⟨2, "Describe a situation where you disagreed with a team member. What did you do?"⟩
  , ⟨3, "Have you ever realized mid-project that something was going wrong? How did you respond?"⟩
  , ⟨4, "How do you handle critical feedback from a supervisor? Can you give an example?"⟩
  ]

/-- The acknowledgement utterances `RESPONSES`, keyed by question index
(part_001 lines 9-14). -/
def RESPONSES : List String :=
  [ "Alright, thank you for sharing that."
  , "Got it, I appreciate your response."
  , "That\x27s a great perspective, thank you."
  , "Thank you for your answer."
  ]

/-- How one `_listenForAnswer` call settles (part_001 100-118): the
recognizer calls back with `RecognizedSpeech` and some text, with any
other reason, or through its error callback; the 30-second timer fires
before any callback; or setting up the config/recognizer throws. -/
inductive ListenOutcome where
  | recognized (text : String)
  | wrongReason
  | errorCb (msg : String)
  | timeout
  | setupThrow (msg : String)
deriving Repr, DecidableEq

/-- What `_listenForAnswer` produces: the value the promise resolves with
(the executor only ever calls `resolve`, so the promise never rejects),
whether `recognizer.close()` ran, and whether the mic indicator was
hidden again. -/
structure ListenResult where
  value : String
  recognizerClosed : Bool
  micHidden : Bool
deriving Repr, DecidableEq

/-- `InterviewController._listenForAnswer` (part_001 100-118): on a
`RecognizedSpeech` result with truthy text, resolve that text; on an
empty recognition, any other reason, the error callback, or the
30-second timeout, resolve the empty string — closing the recognizer in
each of those paths; when setup throws, no recognizer exists to close and
the catch resolves the empty string. -/
def listenForAnswer : ListenOutcome → ListenResult
  | ListenOutcome.recognized t =>
      { value := if t = "" then "" else t, recognizerClosed := true, micHidden := true }
  | ListenOutcome.wrongReason => ⟨"", true, true⟩
  | ListenOutcome.errorCb _ => ⟨"", true, true⟩
  | ListenOutcome.timeout => ⟨"", true, true⟩
  | ListenOutcome.setupThrow _ => ⟨"", false, true⟩

/-- The observable side effects of one speech-variant `_askQuestion` step
(part_001 85-98). `recordAnswerEffect` is the effect the specification
describes — storing the transcript into an AnswerRecord — included so
that its absence from the code's effect trace can be stated; the
controller of part_001 has no `answers` field at all. -/
inductive SEffect where
  | showQuestion (idx : Nat)
  | showTranscript (text : String)
  | speakText (text : String)
  | listen
  | recordAnswerEffect (questionId : Nat) (value : String)
  | wait (ms : Nat)
  | advance (idx : Nat)
deriving Repr, DecidableEq

/-- Whether an effect stores an answer into an AnswerRecord. -/
def isRecordEffect : SEffect → Bool
  | SEffect.recordAnswerEffect _ _ => true
  | _ => false

/-- The speech-variant `_askQuestion idx` (part_001 85-98) for an
in-range index, as the ordered list of its observable effects: render
the question and clear the transcript box, speak
`Question ${idx+1}. ${q.text}`, listen for the answer, display the
transcript only when non-empty (line 94 `if (userSpeech)`), speak the
acknowledgement keyed by the question index (line 95,
`RESPONSES[idx] || 'Thank you for your answer.'`), wait 600ms, and
advance to `idx + 1`. An out-of-range index takes the finish path and is
modelled as the empty effect list here. No effect records the answer
anywhere: the resolved transcript is shown, never stored. -/
def askQuestionEffects (idx : Nat) (o : ListenOutcome) : List SEffect :=
  match VOICE_QUESTIONS[idx]? with
  | none => []
  | some q =>
      [SEffect.showQuestion idx, SEffect.showTranscript "",
       SEffect.speakText ("Question " ++ toString (idx + 1) ++ ". " ++ q.text),
       SEffect.listen]
      ++ (if (listenForAnswer o).value = "" then []
          else [SEffect.showTranscript (listenForAnswer o).value])
      ++ [SEffect.speakText (RESPONSES[idx]?.getD "Thank you for your answer."),
          SEffect.wait 600, SEffect.advance (idx + 1)]

/-- C8 counterexample: in the run where the recognizer never resolves
within 30 seconds (question index 0), the listen resolves with the empty
string and the recognizer is closed — but the step's full effect list
contains no record-into-AnswerRecord effect (the speech variant has no
answer store), refuting the claim's clause that the returned value is
recorded into the AnswerRecord. -/
theorem c8_counterexample :
    askQuestionEffects 0 ListenOutcome.timeout
      = [SEffect.showQuestion 0, SEffect.showTranscript "",
         SEffect.speakText "Question 1. Tell me about a time you had to manage multiple deadlines. How did you handle it?",
         SEffect.listen,
         SEffect.speakText "Alright, thank you for sharing that.",
         SEffect.wait 600, SEffect.advance 1]
    ∧ (askQuestionEffects 0 ListenOutcome.timeout).countP isRecordEffect = 0
    ∧ (listenForAnswer ListenOutcome.timeout).value = ""
    ∧ (listenForAnswer ListenOutcome.timeout).recognizerClosed = true := by
  refine ⟨?_, ?_, rfl, rfl⟩ <;> decide

/-- C8 amended: the listen operation always resolves — with the
recognized non-empty transcript, or with the empty string on an empty
recognition, timeout, recognition failure, or setup exception; on timeout
or failure the recognizer is closed; the returned value is displayed as a
transcript when non-empty but is never recorded into any AnswerRecord
(the speech variant keeps no answer store); the flow then speaks the
acknowledgement utterance keyed by the question index, waits 600ms, and
advances to the next question. -/
theorem c8_listen_flow (idx : Nat) (o : ListenOutcome) :
    (askQuestionEffects idx o).countP isRecordEffect = 0
    ∧ (idx < VOICE_QUESTIONS.length →
        ∃ pre, askQuestionEffects idx o
            = pre ++ [SEffect.speakText
                        (RESPONSES[idx]?.getD "Thank you for your answer."),
                      SEffect.wait 600, SEffect.advance (idx + 1)]
          ∧ SEffect.listen ∈ pre)
    ∧ (listenForAnswer ListenOutcome.timeout).value = ""
    ∧ (listenForAnswer ListenOutcome.timeout).recognizerClosed = true
    ∧ (listenForAnswer ListenOutcome.wrongReason).value = ""
    ∧ (listenForAnswer ListenOutcome.wrongReason).recognizerClosed = true
    ∧ (∀ m, (listenForAnswer (ListenOutcome.errorCb m)).value = ""
        ∧ (listenForAnswer (ListenOutcome.errorCb m)).recognizerClosed = true)
    ∧ (∀ m, (listenForAnswer (ListenOutcome.setupThrow m)).value = "")
    ∧ (∀ t, (listenForAnswer (ListenOutcome.recognized t)).value
        = if t = "" then "" else t) := by
  refine ⟨?_, ?_, rfl, rfl, rfl, rfl, fun m => ⟨rfl, rfl⟩, fun m => rfl, fun t => rfl⟩
  · cases hq : VOICE_QUESTIONS[idx]? with
    | none => simp [askQuestionEffects, hq]
    | some q =>
        by_cases hv : (listenForAnswer o).value = "" <;>
          simp [askQuestionEffects, hq, hv, isRecordEffect,
            List.countP_append, List.countP_cons]
  · intro h
    have hq : VOICE_QUESTIONS[idx]? = some VOICE_QUESTIONS[idx] :=
      List.getElem?_eq_getElem h
    refine ⟨[SEffect.showQuestion idx, SEffect.showTranscript "",
       SEffect.speakText ("Question " ++ toString (idx + 1) ++ ". "
         ++ VOICE_QUESTIONS[idx].text),
       SEffect.listen]
      ++ (if (listenForAnswer o).value = "" then []
          else [SEffect.showTranscript (listenForAnswer o).value]), ?_, ?_⟩
    · simp only [askQuestionEffects, hq]
    · simp

/-- Witness for the amended C8 at question index 0 with a timed-out
listen: the step ends with the acknowledgement, the 600ms wait, and the
advance to question 1. -/
theorem c8_listen_flow_witness :
    (askQuestionEffects 0 ListenOutcome.timeout).countP isRecordEffect = 0
    ∧ ∃ pre, askQuestionEffects 0 ListenOutcome.timeout
        = pre ++ [SEffect.speakText
                    ((RESPONSES.get? 0).getD "Thank you for your answer."),
                  SEffect.wait 600, SEffect.advance 1]
      ∧ SEffect.listen ∈ pre := by
  have h := c8_listen_flow 0 ListenOutcome.timeout
  exact ⟨h.1, h.2.1 (by decide)⟩

end Interview
